import Mathlib

/-!
Verification of the bixi-mcp repository: a shallow embedding of
`src/mcp_server/client.py` (the cached GBFS feed fetcher) and
`src/mcp_server/server.py` (the derived query operations), with theorems
settling the specification claims about cache behaviour, geo search,
name search, aggregation and issue detection.

Machine floats from the Python source are modelled as exact rationals
(for integer-valued arithmetic and timestamps) or reals (for the
trigonometric Haversine computation).  The Python stable `list.sort` is
modelled with `List.insertionSort`, which computes the same unique
stable ordering for a total transitive relation.
-/

namespace Bixi

/-- Python `round` uses round-half-to-even (banker rounding).
`roundHalfEven q` is the nearest integer to `q`, ties going to the even
integer. -/
def roundHalfEven {α : Type} [LinearOrderedField α] [FloorRing α] (q : α) : ℤ :=
  if q - ⌊q⌋ = 1 / 2 then (if Even ⌊q⌋ then ⌊q⌋ else ⌊q⌋ + 1) else round q

/-- Python `round(q, n)`: round to `n` decimal digits, half to even. -/
def pyRound {α : Type} [LinearOrderedField α] [FloorRing α] (n : ℕ) (q : α) : α :=
  (roundHalfEven (q * 10 ^ n) : α) / 10 ^ n

theorem roundHalfEven_zero {α : Type} [LinearOrderedField α] [FloorRing α] :
    roundHalfEven (0 : α) = 0 := by
  simp [roundHalfEven]

theorem pyRound_zero {α : Type} [LinearOrderedField α] [FloorRing α] (n : ℕ) :
    pyRound n (0 : α) = 0 := by
  simp [pyRound, roundHalfEven_zero]

/-! ## client.py — `BixiGBFSClient._fetch_feed`

The cache is `self._cache: Dict[str, tuple]` mapping a string key to a
`(data, timestamp)` pair.  The document type is abstract (`α`): the cache
logic never inspects the parsed JSON.  The single remote GET performed on
a miss/stale entry is modelled by an oracle value `remote` giving that
outcome of that call; `remoteCalled` records whether the remote call happened. -/

/-- Failure of the remote call: `httpx.RequestError` (transport) or
`httpx.HTTPStatusError` (non-2xx status, carrying code and body). -/
inductive FetchErr where
  | transport (msg : String)
  | httpStatus (code : ℕ) (body : String)
deriving DecidableEq

/-- The in-memory cache: key string to `(document, fetchTimestamp)`. -/
def Cache (α : Type) : Type := String → Option (α × ℚ)

/-- The cache key built on client.py line 17: the language, an
underscore, and the feed name. -/
def cacheKey (language feedName : String) : String :=
  language ++ "_" ++ feedName

/-- Result of one `_fetch_feed` call: the returned document or raised
error, the cache mapping afterwards, and whether a remote GET was made. -/
structure FetchOutcome (α : Type) where
  result : Except FetchErr α
  cache : Cache α
  remoteCalled : Bool

/-- The remote branch of `_fetch_feed` (client.py lines 26-38): on
success store `(data, now)` under `key` and return the document; on
failure re-raise, leaving the cache untouched. -/
def fetchRemote {α : Type} (remote : Except FetchErr α) (key : String) (now : ℚ)
    (cache : Cache α) : FetchOutcome α :=
  match remote with
  | .ok data => ⟨.ok data, Function.update cache key (some (data, now)), true⟩
  | .error e => ⟨.error e, cache, true⟩

/-- Function `_fetch_feed` (client.py lines 15-38): serve a cached entry younger
than 60 seconds, otherwise perform the remote call. -/
def fetch_feed {α : Type} (remote : Except FetchErr α) (feed_name language : String)
    (now : ℚ) (cache : Cache α) : FetchOutcome α :=
  match cache (cacheKey language feed_name) with
  | some (data, timestamp) =>
      if now - timestamp < 60 then ⟨.ok data, cache, false⟩
      else fetchRemote remote (cacheKey language feed_name) now cache
  | none => fetchRemote remote (cacheKey language feed_name) now cache

/-! ## server.py — data model

The two feed record shapes the query layer reads.  `lat`/`lon` are the
float degrees of the feed, modelled as reals; counts are the non-negative
integers of the feed; flags are booleans. -/

structure StationInfo where
  station_id : String
  name : String
  lat : ℝ
  lon : ℝ
  capacity : ℕ

structure StationStatus where
  station_id : String
  num_bikes_available : ℕ
  num_ebikes_available : ℕ
  num_docks_available : ℕ
  num_bikes_disabled : ℕ
  num_docks_disabled : ℕ
  is_installed : Bool
  is_renting : Bool
  is_returning : Bool
deriving DecidableEq

/-! ## server.py — `search_stations` (lines 107-140) -/

/-- The Python `str.lower()` of a name, modelled at the character
level: each character lowered in place. -/
def lowerData (s : String) : List Char := s.data.map Char.toLower

/-- The Python sort key `(not name.lower().startswith(query_lower),
name.lower())`; Python compares tuples lexicographically with
`False < True` and strings by code points, hence the
`Bool ×ₗ List Char` lex order. -/
def searchKey (query_lower : List Char) (s : StationInfo) : Bool ×ₗ List Char :=
  toLex (!(query_lower.isPrefixOf (lowerData s.name)), lowerData s.name)

/-- The comparison relation `list.sort(key=...)` sorts by. -/
def searchLe (query_lower : List Char) (a b : StationInfo) : Prop :=
  searchKey query_lower a ≤ searchKey query_lower b

instance (ql : List Char) : DecidableRel (searchLe ql) :=
  fun a b => inferInstanceAs (Decidable (searchKey ql a ≤ searchKey ql b))

instance (ql : List Char) : IsTotal StationInfo (searchLe ql) :=
  ⟨fun a b => le_total (searchKey ql a) (searchKey ql b)⟩

instance (ql : List Char) : IsTrans StationInfo (searchLe ql) :=
  ⟨fun _ _ _ hab hbc => le_trans hab hbc⟩

structure SearchResult where
  query : String
  total_matches : ℕ
  results : List StationInfo

/-- Post-processing of `search_stations` (server.py lines 120-138): filter
by case-insensitive substring match on the name, stable-sort by
`searchKey`, truncate to `limit`, report the pre-truncation match
count. -/
def search_stations (query : String) (limit : ℕ) (stations : List StationInfo) :
    SearchResult :=
  let query_lower := lowerData query
  let matching_stations :=
    stations.filter (fun station => decide (query_lower <:+: lowerData station.name))
  let sorted := matching_stations.insertionSort (searchLe query_lower)
  ⟨query, matching_stations.length, sorted.take limit⟩

/-! ## server.py — `get_system_summary` (lines 162-198) -/

structure SystemSummary where
  total_stations : ℕ
  online_stations : ℕ
  offline_stations : ℤ
  online_percentage : ℚ
  total_capacity : ℕ
  total_bikes_available : ℕ
  total_ebikes_available : ℕ
  total_docks_available : ℕ
  system_utilization_rate : ℚ
deriving DecidableEq

def get_system_summary (stations_info : List StationInfo)
    (stations_status : List StationStatus) : SystemSummary :=
  let total_stations : ℕ := stations_info.length
  let total_capacity : ℕ := (stations_info.map (·.capacity)).sum
  let online_stations : ℕ := (stations_status.filter (·.is_installed)).length
  let total_bikes_available : ℕ := (stations_status.map (·.num_bikes_available)).sum
  let total_ebikes_available : ℕ := (stations_status.map (·.num_ebikes_available)).sum
  let total_docks_available : ℕ := (stations_status.map (·.num_docks_available)).sum
  let utilization_rate : ℚ :=
    if total_capacity > 0 then
      ((total_capacity : ℚ) - (total_docks_available : ℚ)) / (total_capacity : ℚ) * 100
    else 0
  let online_percentage : ℚ :=
    if total_stations > 0 then
      (online_stations : ℚ) / (total_stations : ℚ) * 100
    else 0
  ⟨total_stations, online_stations, (total_stations : ℤ) - (online_stations : ℤ),
    pyRound 1 online_percentage, total_capacity, total_bikes_available,
    total_ebikes_available, total_docks_available, pyRound 1 utilization_rate⟩

/-! ## server.py — `get_stations_with_issues` (lines 201-267) -/

/-- The issue messages appended by `get_stations_with_issues`, one
constructor per distinct message; `highFailure` carries the rounded
percentage interpolated into its message string. -/
inductive Issue where
  | notInstalled
  | notRenting
  | notReturning
  | offline
  | noBikes
  | noDocks
  | highFailure (pct : ℚ)
deriving DecidableEq

/-- The equipment total of rule 5:
`bikes + docks + bikes_disabled + docks_disabled` (server.py line 239). -/
def equipTotal (st : StationStatus) : ℕ :=
  st.num_bikes_available + st.num_docks_available +
    st.num_bikes_disabled + st.num_docks_disabled

/-- The disabled-equipment rate of rule 5 (server.py line 241). -/
def disabledRate (st : StationStatus) : ℚ :=
  ((st.num_bikes_disabled + st.num_docks_disabled : ℕ) : ℚ) / (equipTotal st : ℚ)

/-- The percentage interpolated into the rule-5 message:
`round(disabled_rate * 100, 1)` (server.py line 243). -/
def rulePct (st : StationStatus) : ℚ := pyRound 1 (disabledRate st * 100)

/-- The issue list built for one status entry (server.py lines 218-243),
appended in source order: rules 1-3 independently, the rule-4
`if/elif/elif` chain, then the guarded rule-5 failure-rate check. -/
def issuesFor (st : StationStatus) : List Issue :=
  (if st.is_installed then [] else [.notInstalled]) ++
  (if st.is_renting then [] else [.notRenting]) ++
  (if st.is_returning then [] else [.notReturning]) ++
  (if st.num_bikes_available = 0 ∧ st.num_docks_available = 0 then [.offline]
   else if st.num_bikes_available = 0 ∧ st.is_renting then [.noBikes]
   else if st.num_docks_available = 0 ∧ st.is_returning then [.noDocks]
   else []) ++
  (if equipTotal st > 0 then
     (if disabledRate st > 3 / 10 then [.highFailure (rulePct st)] else [])
   else [])

/-- The `status` sub-dict of a problem-station entry
(server.py lines 251-259). -/
structure StatusSnapshot where
  is_installed : Bool
  is_renting : Bool
  is_returning : Bool
  bikes_available : ℕ
  docks_available : ℕ
  bikes_disabled : ℕ
  docks_disabled : ℕ
deriving DecidableEq

structure ProblemStation where
  station_id : String
  station_name : String
  issues : List Issue
  status : StatusSnapshot
deriving DecidableEq

structure IssueReport where
  total_problem_stations : ℕ
  stations : List ProblemStation
deriving DecidableEq

/-- The station-name lookup dict built by comprehension on server.py
line 213; a comprehension lets a later duplicate id overwrite an
earlier one. -/
def station_names (stations_info : List StationInfo) : String → Option String :=
  stations_info.foldl (fun m s => Function.update m s.station_id (some s.name))
    (fun _ => none)

/-- One appended problem-station record (server.py lines 247-260), with
`station_names.get(id, "Unknown")` for the name. -/
def mkProblemStation (names : String → Option String) (st : StationStatus) :
    ProblemStation :=
  ⟨st.station_id, (names st.station_id).getD "Unknown", issuesFor st,
    ⟨st.is_installed, st.is_renting, st.is_returning, st.num_bikes_available,
      st.num_docks_available, st.num_bikes_disabled, st.num_docks_disabled⟩⟩

/-- Post-processing of `get_stations_with_issues` (server.py lines
213-265): statuses whose issue list is non-empty become problem-station
records, in feed order. -/
def get_stations_with_issues (stations_info : List StationInfo)
    (stations_status : List StationStatus) : IssueReport :=
  let names := station_names stations_info
  let problem_stations := stations_status.filterMap (fun st =>
    if issuesFor st = [] then none else some (mkProblemStation names st))
  ⟨problem_stations.length, problem_stations⟩

/-! ## server.py — `find_nearby_stations` (lines 62-104)

The float trigonometry of the inner `distance` helper is modelled over
the reals. -/

/-- Degree-to-radian conversion `math.radians`. -/
noncomputable def radians (x : ℝ) : ℝ := x * Real.pi / 180

/-- The quadrant-aware arctangent `math.atan2(y, x)`. -/
noncomputable def atan2 (y x : ℝ) : ℝ :=
  if 0 < x then Real.arctan (y / x)
  else if x < 0 ∧ 0 ≤ y then Real.arctan (y / x) + Real.pi
  else if x < 0 ∧ y < 0 then Real.arctan (y / x) - Real.pi
  else if x = 0 ∧ 0 < y then Real.pi / 2
  else if x = 0 ∧ y < 0 then -(Real.pi / 2)
  else 0

/-- The Haversine great-circle distance of server.py lines 76-89, Earth
radius 6,371,000 m. -/
noncomputable def distance (lat1 lon1 lat2 lon2 : ℝ) : ℝ :=
  let R : ℝ := 6371000
  let phi1 := radians lat1
  let phi2 := radians lat2
  let delta_phi := radians (lat2 - lat1)
  let delta_lambda := radians (lon2 - lon1)
  let a := Real.sin (delta_phi / 2) ^ 2 +
    Real.cos phi1 * Real.cos phi2 * Real.sin (delta_lambda / 2) ^ 2
  let c := 2 * atan2 (Real.sqrt a) (Real.sqrt (1 - a))
  R * c

/-- A station record copy with `distance_meters` added (server.py
lines 96-97): the original fields plus the new one. -/
structure NearbyStation where
  info : StationInfo
  distance_meters : ℝ

/-- The comparison `nearby_stations.sort(key=lambda x:
x["distance_meters"])` sorts by. -/
def nearbyLe (a b : NearbyStation) : Prop :=
  a.distance_meters ≤ b.distance_meters

noncomputable instance : DecidableRel nearbyLe :=
  fun a b => inferInstanceAs (Decidable (a.distance_meters ≤ b.distance_meters))

instance : IsTotal NearbyStation nearbyLe :=
  ⟨fun a b => le_total a.distance_meters b.distance_meters⟩

instance : IsTrans NearbyStation nearbyLe :=
  ⟨fun _ _ _ hab hbc => le_trans hab hbc⟩

/-- Post-processing of `find_nearby_stations` (server.py lines 91-102):
keep stations within `radius`, attach the rounded distance, sort
ascending by it. -/
noncomputable def find_nearby_stations (lat lon radius : ℝ)
    (stations : List StationInfo) : List NearbyStation :=
  let nearby_stations := stations.filterMap (fun station =>
    let dist := distance lat lon station.lat station.lon
    if dist ≤ radius then some ⟨station, pyRound 2 dist⟩ else none)
  nearby_stations.insertionSort nearbyLe

/-- The parsed `station_information` feed document as the query layer
reads it: `data["data"]["stations"]` (client.py line 43). -/
structure GBFSDoc where
  stations : List StationInfo

/-- The whole `find_nearby_stations` tool call over the client state:
fetch `station_information` through the cache, then apply the pure
post-processing; the error path re-raises. -/
noncomputable def find_nearby_op (remote : Except FetchErr GBFSDoc)
    (lat lon radius : ℝ) (language : String) (now : ℚ) (cache : Cache GBFSDoc) :
    Except FetchErr (List NearbyStation) × Cache GBFSDoc :=
  let o := fetch_feed remote "station_information" language now cache
  match o.result with
  | .ok data => (.ok (find_nearby_stations lat lon radius data.stations), o.cache)
  | .error e => (.error e, o.cache)

/-! ## server.py — `get_station` (lines 282-299) and
`get_station_status` (lines 302-319) -/

/-- The id-lookup failure: the not-found exception raise taken
when `next(..., None)` yields no match. -/
inductive LookupErr where
  | notFound (station_id : String)
deriving DecidableEq

/-- Lookup `get_station`: first station whose `station_id` equals the request,
else a not-found failure. -/
def get_station (station_id : String) (stations : List StationInfo) :
    Except LookupErr StationInfo :=
  match stations.find? (fun s => s.station_id == station_id) with
  | some station => .ok station
  | none => .error (.notFound station_id)

/-- Lookup `get_station_status`: the same first-match lookup over the
station-status feed. -/
def get_station_status (station_id : String) (statuses : List StationStatus) :
    Except LookupErr StationStatus :=
  match statuses.find? (fun s => s.station_id == station_id) with
  | some status => .ok status
  | none => .error (.notFound station_id)

/-! ## Helper lemmas -/

/-- A `fetch_feed` call touches no cache key other than its own. -/
theorem fetch_feed_cache_frame {α : Type} (remote : Except FetchErr α)
    (feed_name language : String) (now : ℚ) (cache : Cache α) (k : String)
    (hk : k ≠ cacheKey language feed_name) :
    (fetch_feed remote feed_name language now cache).cache k = cache k := by
  unfold fetch_feed
  split
  · split
    · rfl
    · unfold fetchRemote
      split
      · exact Function.update_noteq hk _ _
      · rfl
  · unfold fetchRemote
    split
    · exact Function.update_noteq hk _ _
    · rfl

/-- Splitting a list of characters around a separator absent from both
left parts is injective. -/
theorem append_sep_inj (c : Char) :
    ∀ (l1 l2 r1 r2 : List Char), c ∉ l1 → c ∉ l2 →
      l1 ++ c :: r1 = l2 ++ c :: r2 → l1 = l2 ∧ r1 = r2 := by
  intro l1
  induction l1 with
  | nil =>
    intro l2 r1 r2 _ h2 heq
    cases l2 with
    | nil => simpa using heq
    | cons x xs =>
      exfalso
      simp only [List.nil_append, List.cons_append, List.cons.injEq] at heq
      exact h2 (heq.1 ▸ List.mem_cons_self x xs)
  | cons x xs ih =>
    intro l2 r1 r2 h1 h2 heq
    cases l2 with
    | nil =>
      exfalso
      simp only [List.nil_append, List.cons_append, List.cons.injEq] at heq
      exact h1 (heq.1 ▸ List.mem_cons_self x xs)
    | cons y ys =>
      simp only [List.cons_append, List.cons.injEq] at heq
      obtain ⟨hxy, htail⟩ := heq
      have hx : c ∉ xs := fun hm => h1 (List.mem_cons_of_mem x hm)
      have hy : c ∉ ys := fun hm => h2 (List.mem_cons_of_mem y hm)
      obtain ⟨he, hr⟩ := ih ys r1 r2 hx hy htail
      exact ⟨by rw [hxy, he], hr⟩

/-- When neither language contains an underscore, the cache key
determines the `(language, feedName)` pair. -/
theorem cacheKey_inj (l1 f1 l2 f2 : String)
    (h1 : '_' ∉ l1.data) (h2 : '_' ∉ l2.data)
    (hk : cacheKey l1 f1 = cacheKey l2 f2) : l1 = l2 ∧ f1 = f2 := by
  have hd : l1.data ++ '_' :: f1.data = l2.data ++ '_' :: f2.data := by
    have := congrArg String.data hk
    simpa [cacheKey, String.data_append] using this
  obtain ⟨ha, hb⟩ := append_sep_inj '_' l1.data l2.data f1.data f2.data h1 h2 hd
  exact ⟨String.ext ha, String.ext hb⟩

/-! ## Claims -/

/-- C1 — Cache freshness: a key populated at `t0` is served verbatim,
with no remote call, at every `now` with `t0 ≤ now < t0 + 60`; at
`now ≥ t0 + 60` the remote call is made. -/
theorem cache_freshness {α : Type} (remote : Except FetchErr α)
    (feed_name language : String) (d : α) (t0 now : ℚ) (cache : Cache α)
    (hc : cache (cacheKey language feed_name) = some (d, t0)) (_h0 : t0 ≤ now) :
    (now < t0 + 60 →
      fetch_feed remote feed_name language now cache = ⟨.ok d, cache, false⟩) ∧
    (t0 + 60 ≤ now →
      (fetch_feed remote feed_name language now cache).remoteCalled = true) := by
  constructor
  · intro h
    unfold fetch_feed
    simp only [hc]
    rw [if_pos (show now - t0 < 60 by linarith)]
  · intro h
    unfold fetch_feed
    simp only [hc]
    rw [if_neg (show ¬ now - t0 < 60 by linarith)]
    unfold fetchRemote
    split <;> rfl

def c1cache : Cache ℕ :=
  Function.update (fun _ => none) "en_station_information" (some (5, 0))

theorem cache_freshness_witness :
    fetch_feed (α := ℕ) (.ok 7) "station_information" "en" 30 c1cache =
      ⟨.ok 5, c1cache, false⟩ ∧
    (fetch_feed (α := ℕ) (.ok 7) "station_information" "en" 60 c1cache).remoteCalled =
      true := by
  have hc : c1cache (cacheKey "en" "station_information") = some (5, 0) := by
    rw [show cacheKey "en" "station_information" = "en_station_information" from rfl]
    simp [c1cache]
  exact ⟨(cache_freshness (.ok 7) "station_information" "en" 5 0 30 c1cache hc
      (by norm_num)).1 (by norm_num),
    (cache_freshness (.ok 7) "station_information" "en" 5 0 60 c1cache hc
      (by norm_num)).2 (by norm_num)⟩

/-- C2 — Cache failure atomicity: when the remote call fails, the cache
mapping after `_fetch_feed` equals the mapping before it, and if the
remote call was actually made the failure is what the caller receives. -/
theorem cache_failure_atomicity {α : Type} (e : FetchErr)
    (feed_name language : String) (now : ℚ) (cache : Cache α) :
    (fetch_feed (α := α) (.error e) feed_name language now cache).cache = cache ∧
    ((fetch_feed (α := α) (.error e) feed_name language now cache).remoteCalled = true →
      (fetch_feed (α := α) (.error e) feed_name language now cache).result =
        .error e) := by
  unfold fetch_feed fetchRemote
  split
  · split
    · simp
    · simp
  · simp

def emptyNatCache : Cache ℕ := fun _ => none

theorem cache_failure_atomicity_witness :
    (fetch_feed (α := ℕ) (.error (.transport "timeout")) "station_status" "en" 0
      emptyNatCache).cache = emptyNatCache ∧
    (fetch_feed (α := ℕ) (.error (.transport "timeout")) "station_status" "en" 0
      emptyNatCache).result = .error (.transport "timeout") :=
  ⟨(cache_failure_atomicity (.transport "timeout") "station_status" "en" 0
      emptyNatCache).1,
   (cache_failure_atomicity (.transport "timeout") "station_status" "en" 0
      emptyNatCache).2 rfl⟩

def c3cache : Cache ℕ :=
  Function.update (fun _ => none) (cacheKey "a" "b_c") (some (99, 0))

/-- C3 counterexample: the pairs `("a", "b_c")` and `("a_b", "c")` are
distinct yet share the cache key, and a fetch for the second pair,
within the freshness window, returns the document stored for the first
pair without any remote call. -/
theorem cache_key_collision_counterexample :
    (("a", "b_c") ≠ ("a_b", "c")) ∧
    cacheKey "a" "b_c" = cacheKey "a_b" "c" ∧
    (fetch_feed (α := ℕ) (.ok 0) "c" "a_b" 10 c3cache).result = .ok 99 ∧
    (fetch_feed (α := ℕ) (.ok 0) "c" "a_b" 10 c3cache).remoteCalled = false := by
  have hc : c3cache (cacheKey "a_b" "c") = some (99, 0) := by
    rw [show cacheKey "a_b" "c" = cacheKey "a" "b_c" from rfl]
    simp [c3cache]
  refine ⟨by decide, rfl, ?_, ?_⟩ <;>
    · unfold fetch_feed
      simp only [hc]
      rw [if_pos (show (10 : ℚ) - 0 < 60 by norm_num)]

/-- C3 amended — restricted key injectivity: for languages containing
no underscore, distinct `(language, feedName)` pairs map to distinct
cache keys; moreover a fetch for one pair leaves the entry under the
other key untouched, and a fresh cache hit returns exactly the document
stored under its own key. -/
theorem cache_key_injective_amended {α : Type} (remote : Except FetchErr α)
    (l1 f1 l2 f2 : String) (now : ℚ) (cache : Cache α) (d : α) (t0 : ℚ)
    (h1 : '_' ∉ l1.data) (h2 : '_' ∉ l2.data) (hne : (l1, f1) ≠ (l2, f2)) :
    cacheKey l1 f1 ≠ cacheKey l2 f2 ∧
    (fetch_feed remote f1 l1 now cache).cache (cacheKey l2 f2) =
      cache (cacheKey l2 f2) ∧
    (cache (cacheKey l1 f1) = some (d, t0) → now - t0 < 60 →
      (fetch_feed remote f1 l1 now cache).result = .ok d) := by
  have hkey : cacheKey l1 f1 ≠ cacheKey l2 f2 := by
    intro h
    obtain ⟨ha, hb⟩ := cacheKey_inj l1 f1 l2 f2 h1 h2 h
    exact hne (by rw [ha, hb])
  refine ⟨hkey, fetch_feed_cache_frame remote f1 l1 now cache _ (Ne.symm hkey), ?_⟩
  intro hhit h60
  unfold fetch_feed
  simp only [hhit]
  rw [if_pos h60]

/-! ## Issue-rule helper lemmas -/

theorem mem_flag_chunk (c : Prop) [Decidable c] (x y : Issue) :
    (y ∈ if c then ([] : List Issue) else [x]) ↔ ¬c ∧ y = x := by
  split <;> simp_all

theorem mem_chain (c1 c2 c3 : Prop) [Decidable c1] [Decidable c2] [Decidable c3]
    (y : Issue) :
    (y ∈ if c1 then [Issue.offline]
         else if c2 then [Issue.noBikes]
         else if c3 then [Issue.noDocks]
         else ([] : List Issue)) ↔
      (c1 ∧ y = .offline) ∨ (¬c1 ∧ c2 ∧ y = .noBikes) ∨
        (¬c1 ∧ ¬c2 ∧ c3 ∧ y = .noDocks) := by
  split_ifs <;> simp_all

theorem mem_rule5 (c1 c2 : Prop) [Decidable c1] [Decidable c2] (p : ℚ) (y : Issue) :
    (y ∈ if c1 then (if c2 then [Issue.highFailure p] else ([] : List Issue))
         else ([] : List Issue)) ↔ c1 ∧ c2 ∧ y = .highFailure p := by
  split_ifs <;> simp_all

theorem mem_issuesFor (st : StationStatus) (y : Issue) :
    y ∈ issuesFor st ↔
      (st.is_installed = false ∧ y = .notInstalled) ∨
      (st.is_renting = false ∧ y = .notRenting) ∨
      (st.is_returning = false ∧ y = .notReturning) ∨
      ((st.num_bikes_available = 0 ∧ st.num_docks_available = 0) ∧ y = .offline) ∨
      (¬(st.num_bikes_available = 0 ∧ st.num_docks_available = 0) ∧
        (st.num_bikes_available = 0 ∧ st.is_renting = true) ∧ y = .noBikes) ∨
      (¬(st.num_bikes_available = 0 ∧ st.num_docks_available = 0) ∧
        ¬(st.num_bikes_available = 0 ∧ st.is_renting = true) ∧
        (st.num_docks_available = 0 ∧ st.is_returning = true) ∧ y = .noDocks) ∨
      (0 < equipTotal st ∧ 3 / 10 < disabledRate st ∧ y = .highFailure (rulePct st)) := by
  unfold issuesFor
  simp only [List.mem_append, mem_flag_chunk, mem_chain, mem_rule5, gt_iff_lt,
    Bool.not_eq_true, or_assoc]

theorem chunk_sublist (c : Prop) [Decidable c] (x : Issue) :
    List.Sublist (if c then ([] : List Issue) else [x]) [x] := by
  split <;> simp

theorem chain_sublist (c1 c2 c3 : Prop) [Decidable c1] [Decidable c2] [Decidable c3] :
    List.Sublist
      (if c1 then [Issue.offline]
       else if c2 then [Issue.noBikes]
       else if c3 then [Issue.noDocks]
       else ([] : List Issue))
      [Issue.offline, Issue.noBikes, Issue.noDocks] := by
  split_ifs <;> simp [List.singleton_sublist]

theorem rule5_sublist (c1 c2 : Prop) [Decidable c1] [Decidable c2] (p : ℚ) :
    List.Sublist
      (if c1 then (if c2 then [Issue.highFailure p] else ([] : List Issue))
       else ([] : List Issue)) [Issue.highFailure p] := by
  split_ifs <;> simp

theorem filterMap_if_eq {α β : Type} (p : α → Prop) [DecidablePred p] (f : α → β)
    (l : List α) :
    l.filterMap (fun x => if p x then none else some (f x)) =
      (l.filter (fun x => !decide (p x))).map f := by
  induction l with
  | nil => rfl
  | cons x xs ih => by_cases h : p x <;> simp [h, ih]

def c3wcache : Cache ℕ :=
  Function.update (fun _ => none) (cacheKey "en" "station_information") (some (5, 0))

theorem cache_key_injective_amended_witness :
    cacheKey "en" "station_information" ≠ cacheKey "fr" "station_information" ∧
    (fetch_feed (α := ℕ) (.ok 7) "station_information" "en" 10 c3wcache).cache
      (cacheKey "fr" "station_information") =
      c3wcache (cacheKey "fr" "station_information") ∧
    (fetch_feed (α := ℕ) (.ok 7) "station_information" "en" 10 c3wcache).result =
      .ok 5 := by
  have H := cache_key_injective_amended (α := ℕ) (.ok 7) "en" "station_information"
    "fr" "station_information" 10 c3wcache 5 0 (by decide) (by decide) (by decide)
  exact ⟨H.1, H.2.1, H.2.2 (by simp [c3wcache]) (by norm_num)⟩

/-- C5 — System summary formulas: the totals are the stated counts and
sums, and the two rates follow the stated guarded formulas, rounded to
one decimal, with value 0 when the respective denominator is zero. -/
theorem system_summary_formulas (stations_info : List StationInfo)
    (stations_status : List StationStatus) :
    (get_system_summary stations_info stations_status).total_stations =
      stations_info.length ∧
    (get_system_summary stations_info stations_status).total_capacity =
      (stations_info.map (·.capacity)).sum ∧
    (get_system_summary stations_info stations_status).online_stations =
      (stations_status.filter (·.is_installed)).length ∧
    ((get_system_summary stations_info stations_status).total_capacity = 0 →
      (get_system_summary stations_info stations_status).system_utilization_rate = 0) ∧
    ((get_system_summary stations_info stations_status).total_stations = 0 →
      (get_system_summary stations_info stations_status).online_percentage = 0) ∧
    (0 < (get_system_summary stations_info stations_status).total_capacity →
      (get_system_summary stations_info stations_status).system_utilization_rate =
        pyRound 1 (((((stations_info.map (·.capacity)).sum : ℕ) : ℚ) -
          (((stations_status.map (·.num_docks_available)).sum : ℕ) : ℚ)) /
          (((stations_info.map (·.capacity)).sum : ℕ) : ℚ) * 100)) ∧
    (0 < (get_system_summary stations_info stations_status).total_stations →
      (get_system_summary stations_info stations_status).online_percentage =
        pyRound 1 ((((stations_status.filter (·.is_installed)).length : ℕ) : ℚ) /
          ((stations_info.length : ℕ) : ℚ) * 100)) := by
  simp only [get_system_summary]
  refine ⟨trivial, trivial, trivial, ?_, ?_, ?_, ?_⟩
  · intro h
    simp [h, pyRound_zero]
  · intro h
    simp [h, pyRound_zero]
  · intro h
    rw [if_pos h]
  · intro h
    rw [if_pos h]

theorem system_summary_formulas_witness :
    (get_system_summary [] []).system_utilization_rate = 0 ∧
    (get_system_summary [] []).online_percentage = 0 :=
  ⟨(system_summary_formulas [] []).2.2.2.1 rfl,
   (system_summary_formulas [] []).2.2.2.2.1 rfl⟩

/-! ## Membership characterisations of the issue rules -/

theorem offline_mem_iff (st : StationStatus) :
    Issue.offline ∈ issuesFor st ↔
      st.num_bikes_available = 0 ∧ st.num_docks_available = 0 := by
  constructor
  · intro hmem
    rcases (mem_issuesFor st _).mp hmem with
      ⟨-, h⟩ | ⟨-, h⟩ | ⟨-, h⟩ | ⟨hc, -⟩ | ⟨-, -, h⟩ | ⟨-, -, -, h⟩ | ⟨-, -, h⟩
    all_goals first | exact Issue.noConfusion h | exact hc
  · intro hc
    exact (mem_issuesFor st _).mpr (.inr (.inr (.inr (.inl ⟨hc, rfl⟩))))

theorem noBikes_mem_iff (st : StationStatus) :
    Issue.noBikes ∈ issuesFor st ↔
      st.num_bikes_available = 0 ∧ st.num_docks_available ≠ 0 ∧
        st.is_renting = true := by
  constructor
  · intro hmem
    rcases (mem_issuesFor st _).mp hmem with
      ⟨-, h⟩ | ⟨-, h⟩ | ⟨-, h⟩ | ⟨-, h⟩ | ⟨hn, ⟨hb, hr⟩, -⟩ | ⟨-, -, -, h⟩ | ⟨-, -, h⟩
    all_goals first | exact Issue.noConfusion h | exact ⟨hb, fun hd => hn ⟨hb, hd⟩, hr⟩
  · rintro ⟨hb, hd, hr⟩
    exact (mem_issuesFor st _).mpr
      (.inr (.inr (.inr (.inr (.inl ⟨fun hc => hd hc.2, ⟨hb, hr⟩, rfl⟩)))))

theorem noDocks_mem_iff (st : StationStatus) :
    Issue.noDocks ∈ issuesFor st ↔
      st.num_docks_available = 0 ∧ st.num_bikes_available ≠ 0 ∧
        st.is_returning = true := by
  constructor
  · intro hmem
    rcases (mem_issuesFor st _).mp hmem with
      ⟨-, h⟩ | ⟨-, h⟩ | ⟨-, h⟩ | ⟨-, h⟩ | ⟨-, -, h⟩ | ⟨h1, -, ⟨hd, hret⟩, -⟩ | ⟨-, -, h⟩
    all_goals first | exact Issue.noConfusion h | exact ⟨hd, fun hb => h1 ⟨hb, hd⟩, hret⟩
  · rintro ⟨hd, hb, hret⟩
    exact (mem_issuesFor st _).mpr
      (.inr (.inr (.inr (.inr (.inr (.inl
        ⟨fun hc => hb hc.1, fun hc => hb hc.1, ⟨hd, hret⟩, rfl⟩))))))

theorem highFailure_mem_iff (st : StationStatus) (p : ℚ) :
    Issue.highFailure p ∈ issuesFor st ↔
      0 < equipTotal st ∧ 3 / 10 < disabledRate st ∧ p = rulePct st := by
  constructor
  · intro hmem
    rcases (mem_issuesFor st _).mp hmem with
      ⟨-, h⟩ | ⟨-, h⟩ | ⟨-, h⟩ | ⟨-, h⟩ | ⟨-, -, h⟩ | ⟨-, -, -, h⟩ | ⟨h1, h2, heq⟩
    all_goals first
      | exact Issue.noConfusion h
      | (cases heq; exact ⟨h1, h2, rfl⟩)
  · rintro ⟨h1, h2, rfl⟩
    exact (mem_issuesFor st _).mpr (.inr (.inr (.inr (.inr (.inr (.inr ⟨h1, h2, rfl⟩))))))

/-! ## Claims C4 and C8 -/

/-- C4 — Issue-rule exclusivity and order: a status with zero bikes and
zero docks gets the offline message and neither of the other two rule-4
messages; the no-bikes message fires exactly when bikes are zero, docks
are not, and the station is renting; the no-docks message exactly when
docks are zero, bikes are not, and the station is returning; and the
issue list is always a sublist of the fixed rule-order list 1-5. -/
theorem issue_rules_exclusive (st : StationStatus) :
    (st.num_bikes_available = 0 ∧ st.num_docks_available = 0 →
      Issue.offline ∈ issuesFor st ∧ Issue.noBikes ∉ issuesFor st ∧
        Issue.noDocks ∉ issuesFor st) ∧
    (Issue.noBikes ∈ issuesFor st ↔
      st.num_bikes_available = 0 ∧ st.num_docks_available ≠ 0 ∧
        st.is_renting = true) ∧
    (Issue.noDocks ∈ issuesFor st ↔
      st.num_docks_available = 0 ∧ st.num_bikes_available ≠ 0 ∧
        st.is_returning = true) ∧
    List.Sublist (issuesFor st)
      [Issue.notInstalled, Issue.notRenting, Issue.notReturning, Issue.offline,
        Issue.noBikes, Issue.noDocks, Issue.highFailure (rulePct st)] := by
  refine ⟨?_, noBikes_mem_iff st, noDocks_mem_iff st, ?_⟩
  · rintro ⟨hb, hd⟩
    refine ⟨(offline_mem_iff st).mpr ⟨hb, hd⟩, ?_, ?_⟩
    · intro hmem
      exact ((noBikes_mem_iff st).mp hmem).2.1 hd
    · intro hmem
      exact ((noDocks_mem_iff st).mp hmem).2.1 hb
  · unfold issuesFor
    have h1 := chunk_sublist (st.is_installed = true) .notInstalled
    have h2 := chunk_sublist (st.is_renting = true) .notRenting
    have h3 := chunk_sublist (st.is_returning = true) .notReturning
    have h4 := chain_sublist (st.num_bikes_available = 0 ∧ st.num_docks_available = 0)
      (st.num_bikes_available = 0 ∧ st.is_renting = true)
      (st.num_docks_available = 0 ∧ st.is_returning = true)
    have h5 := rule5_sublist (equipTotal st > 0) (disabledRate st > 3 / 10) (rulePct st)
    exact (((h1.append h2).append h3).append h4).append h5

def st_offline : StationStatus := ⟨"1", 0, 0, 0, 0, 0, true, true, true⟩

theorem issue_rules_exclusive_witness :
    Issue.offline ∈ issuesFor st_offline ∧
    Issue.noBikes ∉ issuesFor st_offline ∧
    Issue.noDocks ∉ issuesFor st_offline :=
  (issue_rules_exclusive st_offline).1 ⟨rfl, rfl⟩

/-- C8 — Equipment-failure guard: the high-failure message appears in
the issue list exactly when the equipment total is positive and the
disabled rate exceeds 3/10 (so the rate is never formed from a zero
denominator), and the report keeps exactly the statuses whose issue
list is non-empty. -/
theorem equipment_failure_guard (stations_info : List StationInfo)
    (stations_status : List StationStatus) (st : StationStatus) :
    (Issue.highFailure (rulePct st) ∈ issuesFor st ↔
      0 < equipTotal st ∧ 3 / 10 < disabledRate st) ∧
    ((∃ p, Issue.highFailure p ∈ issuesFor st) ↔
      0 < equipTotal st ∧ 3 / 10 < disabledRate st) ∧
    (get_stations_with_issues stations_info stations_status).stations =
      (stations_status.filter (fun s => !decide (issuesFor s = []))).map
        (mkProblemStation (station_names stations_info)) ∧
    (∀ e ∈ (get_stations_with_issues stations_info stations_status).stations,
      e.issues ≠ []) ∧
    (get_stations_with_issues stations_info stations_status).total_problem_stations =
      (get_stations_with_issues stations_info stations_status).stations.length := by
  have hmap : (get_stations_with_issues stations_info stations_status).stations =
      (stations_status.filter (fun s => !decide (issuesFor s = []))).map
        (mkProblemStation (station_names stations_info)) := by
    unfold get_stations_with_issues
    exact filterMap_if_eq (fun s => issuesFor s = []) _ stations_status
  refine ⟨?_, ?_, hmap, ?_, rfl⟩
  · rw [highFailure_mem_iff]
    constructor
    · intro h
      exact ⟨h.1, h.2.1⟩
    · intro h
      exact ⟨h.1, h.2, rfl⟩
  · constructor
    · rintro ⟨p, hp⟩
      have h := (highFailure_mem_iff st p).mp hp
      exact ⟨h.1, h.2.1⟩
    · intro h
      exact ⟨rulePct st, (highFailure_mem_iff st _).mpr ⟨h.1, h.2, rfl⟩⟩
  · intro e he
    rw [hmap] at he
    obtain ⟨s, hs, rfl⟩ := List.mem_map.mp he
    have hf := List.of_mem_filter hs
    simpa [mkProblemStation] using hf

def st_highfail : StationStatus := ⟨"2", 1, 0, 1, 2, 0, true, true, true⟩

def st_healthy : StationStatus := ⟨"3", 1, 0, 1, 0, 0, true, true, true⟩

theorem equipment_failure_guard_witness :
    Issue.highFailure (rulePct st_highfail) ∈ issuesFor st_highfail ∧
    (get_stations_with_issues [] [st_healthy]).stations = [] :=
  ⟨(equipment_failure_guard [] [st_healthy] st_highfail).1.mpr
    (by norm_num [equipTotal, disabledRate, st_highfail]),
   by
    rw [(equipment_failure_guard [] [st_healthy] st_highfail).2.2.1]
    have h : issuesFor st_healthy = [] := by
      norm_num [issuesFor, st_healthy, equipTotal, disabledRate]
    simp [h]⟩

/-! ## Claim C9 — id lookups -/

/-- First-match characterisation of `List.find?`. -/
theorem find?_append_first {α : Type} (p : α → Bool) (l1 : List α) (a : α)
    (l2 : List α) (ha : p a = true) (hl : ∀ x ∈ l1, p x = false) :
    (l1 ++ a :: l2).find? p = some a := by
  induction l1 with
  | nil => simpa using List.find?_cons_of_pos l2 ha
  | cons x xs ih =>
    have hx : p x = false := hl x (List.mem_cons_self x xs)
    have ih2 := ih (fun y hy => hl y (List.mem_cons_of_mem x hy))
    rw [List.cons_append, List.find?_cons_of_neg _ (by simp [hx])]
    exact ih2

/-- C9 — Lookup by id: `get_station` returns the first station whose id
matches and fails with the not-found error when no station matches;
likewise `get_station_status` over the status list. -/
theorem station_lookup_spec (station_id : String) (stations : List StationInfo)
    (statuses : List StationStatus) :
    ((∀ s ∈ stations, s.station_id ≠ station_id) →
      get_station station_id stations = .error (.notFound station_id)) ∧
    (∀ l1 s l2, stations = l1 ++ s :: l2 → s.station_id = station_id →
      (∀ t ∈ l1, t.station_id ≠ station_id) →
      get_station station_id stations = .ok s) ∧
    ((∀ s ∈ statuses, s.station_id ≠ station_id) →
      get_station_status station_id statuses = .error (.notFound station_id)) ∧
    (∀ l1 s l2, statuses = l1 ++ s :: l2 → s.station_id = station_id →
      (∀ t ∈ l1, t.station_id ≠ station_id) →
      get_station_status station_id statuses = .ok s) := by
  refine ⟨?_, ?_, ?_, ?_⟩
  · intro h
    unfold get_station
    have hn : stations.find? (fun s => s.station_id == station_id) = none := by
      rw [List.find?_eq_none]
      intro x hx
      simpa using h x hx
    rw [hn]
  · rintro l1 s l2 rfl hs hl
    unfold get_station
    have hf : (l1 ++ s :: l2).find? (fun t => t.station_id == station_id) = some s :=
      find?_append_first _ l1 s l2 (by simp [hs]) (fun t ht => by simp [hl t ht])
    rw [hf]
  · intro h
    unfold get_station_status
    have hn : statuses.find? (fun s => s.station_id == station_id) = none := by
      rw [List.find?_eq_none]
      intro x hx
      simpa using h x hx
    rw [hn]
  · rintro l1 s l2 rfl hs hl
    unfold get_station_status
    have hf : (l1 ++ s :: l2).find? (fun t => t.station_id == station_id) = some s :=
      find?_append_first _ l1 s l2 (by simp [hs]) (fun t ht => by simp [hl t ht])
    rw [hf]

def infoA : StationInfo := ⟨"41", "A", 0, 0, 4⟩

def infoB : StationInfo := ⟨"42", "B", 0, 0, 6⟩

theorem station_lookup_spec_witness :
    get_station "42" [infoA, infoB] = .ok infoB ∧
    get_station "43" [infoA] = .error (.notFound "43") ∧
    get_station_status "7" [st_offline] = .error (.notFound "7") := by
  refine ⟨?_, ?_, ?_⟩
  · exact (station_lookup_spec "42" [infoA, infoB] []).2.1 [infoA] infoB [] rfl rfl
      (fun t ht => (List.mem_singleton.mp ht) ▸ (by decide))
  · exact (station_lookup_spec "43" [infoA] []).1
      (fun s hs => (List.mem_singleton.mp hs) ▸ (by decide))
  · exact (station_lookup_spec "7" [] [st_offline]).2.2.1
      (fun s hs => (List.mem_singleton.mp hs) ▸ (by decide))

/-! ## Claim C6 — search ranking -/

/-- The claim-facing ordering of search results: a prefix match never
follows a non-prefix match, and within a group the lowercased names are
ascending. -/
def searchOrdered (ql : List Char) (a b : StationInfo) : Prop :=
  (ql.isPrefixOf (lowerData b.name) = true → ql.isPrefixOf (lowerData a.name) = true) ∧
  (ql.isPrefixOf (lowerData a.name) = ql.isPrefixOf (lowerData b.name) →
    lowerData a.name ≤ lowerData b.name)

theorem searchLe_ordered (ql : List Char) (a b : StationInfo) (h : searchLe ql a b) :
    searchOrdered ql a b := by
  unfold searchLe searchKey at h
  rw [Prod.Lex.le_iff] at h
  dsimp only at h
  constructor
  · intro hb
    cases ha : ql.isPrefixOf (lowerData a.name)
    · rw [ha, hb] at h
      rcases h with h | ⟨h1, -⟩
      · exact absurd h (by decide)
      · exact absurd h1 (by decide)
    · rfl
  · intro heq
    rcases h with h | ⟨-, h2⟩
    · rw [heq] at h
      exact absurd h (lt_irrefl _)
    · exact h2

/-- C6 — Search: the match count is the number of stations whose
lowercased name contains the lowercased query, the results are the
matches modulo truncation at `limit`, and they are ordered with prefix
matches first and lowercased names ascending within a group. -/
theorem search_ranking (query : String) (limit : ℕ) (stations : List StationInfo) :
    (search_stations query limit stations).query = query ∧
    (search_stations query limit stations).total_matches =
      (stations.filter (fun s =>
        decide (lowerData query <:+: lowerData s.name))).length ∧
    (search_stations query limit stations).results.length =
      min limit (stations.filter (fun s =>
        decide (lowerData query <:+: lowerData s.name))).length ∧
    ((search_stations query limit stations).results ++
      ((stations.filter (fun s =>
        decide (lowerData query <:+: lowerData s.name))).insertionSort
          (searchLe (lowerData query))).drop limit).Perm
      (stations.filter (fun s =>
        decide (lowerData query <:+: lowerData s.name))) ∧
    (search_stations query limit stations).results.Pairwise
      (searchOrdered (lowerData query)) := by
  simp only [search_stations]
  refine ⟨trivial, trivial, ?_, ?_, ?_⟩
  · rw [List.length_take, List.length_insertionSort]
  · rw [List.take_append_drop]
    exact List.perm_insertionSort _ _
  · exact ((List.sorted_insertionSort _ _).sublist (List.take_sublist _ _)).imp
      (fun hab => searchLe_ordered _ _ _ hab)

def stMainSt : StationInfo := ⟨"1", "Main St", 0, 0, 0⟩

def stNorthMain : StationInfo := ⟨"2", "North Main", 0, 0, 0⟩

def stMainSquare : StationInfo := ⟨"3", "main square", 0, 0, 0⟩

theorem search_ranking_witness :
    (search_stations "Main" 20 [stMainSt, stNorthMain, stMainSquare]).total_matches =
      3 ∧
    (search_stations "Main" 20 [stMainSt, stNorthMain, stMainSquare]).results =
      [stMainSquare, stMainSt, stNorthMain] := by
  refine ⟨(search_ranking "Main" 20 [stMainSt, stNorthMain, stMainSquare]).2.1.trans
    ?_, ?_⟩
  · decide
  · rfl


/-! ## Claim C7 — haversine radius search -/

theorem distance_self (lat lon : ℝ) : distance lat lon lat lon = 0 := by
  unfold distance radians atan2
  norm_num [Real.sin_zero, Real.sqrt_zero, Real.sqrt_one, Real.arctan_zero]

/-- Every returned record comes from an in-radius station, carries its
fields, and its `distance_meters` is the rounded distance. -/
theorem find_nearby_mem (lat lon radius : ℝ) (stations : List StationInfo)
    (r : NearbyStation) (hr : r ∈ find_nearby_stations lat lon radius stations) :
    ∃ s ∈ stations, r.info = s ∧ distance lat lon s.lat s.lon ≤ radius ∧
      r.distance_meters = pyRound 2 (distance lat lon s.lat s.lon) := by
  unfold find_nearby_stations at hr
  rw [List.mem_insertionSort] at hr
  obtain ⟨s, hs, hmk⟩ := List.mem_filterMap.mp hr
  dsimp only at hmk
  by_cases hd : distance lat lon s.lat s.lon ≤ radius
  · rw [if_pos hd] at hmk
    cases Option.some.inj hmk
    exact ⟨s, hs, rfl, hd, rfl⟩
  · rw [if_neg hd] at hmk
    exact absurd hmk (by simp)

/-- C7 — Nearby search: the self-distance of the haversine formula is
zero; the result is sorted ascending by the attached rounded distance;
it is a permutation of the in-radius stations, each annotated with its
rounded distance; and a station at the query point is included for any
non-negative radius, at distance zero. -/
theorem nearby_stations_spec (lat lon radius : ℝ) (stations : List StationInfo) :
    distance lat lon lat lon = 0 ∧
    (find_nearby_stations lat lon radius stations).Sorted nearbyLe ∧
    (find_nearby_stations lat lon radius stations).Perm
      (stations.filterMap (fun station =>
        if distance lat lon station.lat station.lon ≤ radius then
          some ⟨station, pyRound 2 (distance lat lon station.lat station.lon)⟩
        else none)) ∧
    (∀ r ∈ find_nearby_stations lat lon radius stations, ∃ s ∈ stations,
      r.info = s ∧ distance lat lon s.lat s.lon ≤ radius ∧
      r.distance_meters = pyRound 2 (distance lat lon s.lat s.lon)) ∧
    (0 ≤ radius → ∀ s ∈ stations, s.lat = lat → s.lon = lon →
      (⟨s, 0⟩ : NearbyStation) ∈ find_nearby_stations lat lon radius stations) := by
  refine ⟨distance_self lat lon, ?_, ?_, find_nearby_mem lat lon radius stations, ?_⟩
  · unfold find_nearby_stations
    exact List.sorted_insertionSort _ _
  · unfold find_nearby_stations
    exact List.perm_insertionSort _ _
  · intro hrad s hs hlat hlon
    unfold find_nearby_stations
    rw [List.mem_insertionSort]
    refine List.mem_filterMap.mpr ⟨s, hs, ?_⟩
    dsimp only
    have hd : distance lat lon s.lat s.lon = 0 := by
      rw [hlat, hlon]
      exact distance_self lat lon
    rw [hd, if_pos hrad, pyRound_zero]

def stHome : StationInfo := ⟨"h", "Home", 45.5, -73.5, 10⟩

theorem nearby_stations_spec_witness :
    distance 45.5 (-73.5) 45.5 (-73.5) = 0 ∧
    (⟨stHome, 0⟩ : NearbyStation) ∈ find_nearby_stations 45.5 (-73.5) 0 [stHome] := by
  have H := nearby_stations_spec 45.5 (-73.5) 0 [stHome]
  exact ⟨H.1, H.2.2.2.2 le_rfl stHome (List.mem_singleton.mpr rfl) rfl rfl⟩

/-! ## Claim C10 — post-processing mutates nothing -/

/-- C10 — No mutation: after a successful fetch, the whole
`find_nearby_stations` operation leaves the cache exactly as the fetch
left it, its result is the pure post-processing of the fetched
document, and every returned record carries the fields of a fetched
station unchanged (plus the added distance). -/
theorem nearby_no_mutation (remote : Except FetchErr GBFSDoc) (lat lon radius : ℝ)
    (language : String) (now : ℚ) (cache : Cache GBFSDoc) (doc : GBFSDoc)
    (h : (fetch_feed remote "station_information" language now cache).result =
      .ok doc) :
    (find_nearby_op remote lat lon radius language now cache).2 =
      (fetch_feed remote "station_information" language now cache).cache ∧
    (find_nearby_op remote lat lon radius language now cache).1 =
      .ok (find_nearby_stations lat lon radius doc.stations) ∧
    ∀ r ∈ find_nearby_stations lat lon radius doc.stations,
      ∃ s ∈ doc.stations, r.info = s := by
  have hop : find_nearby_op remote lat lon radius language now cache =
      (.ok (find_nearby_stations lat lon radius doc.stations),
        (fetch_feed remote "station_information" language now cache).cache) := by
    unfold find_nearby_op
    simp only [h]
  refine ⟨by rw [hop], by rw [hop], ?_⟩
  intro r hr
  obtain ⟨s, hs, hinfo, -, -⟩ := find_nearby_mem lat lon radius doc.stations r hr
  exact ⟨s, hs, hinfo⟩

def gEmptyCache : Cache GBFSDoc := fun _ => none

theorem nearby_no_mutation_witness :
    (find_nearby_op (.ok ⟨[]⟩) 0 0 0 "en" 0 gEmptyCache).1 = .ok [] ∧
    (find_nearby_op (.ok ⟨[]⟩) 0 0 0 "en" 0 gEmptyCache).2 =
      (fetch_feed (.ok ⟨[]⟩) "station_information" "en" 0 gEmptyCache).cache := by
  have H := nearby_no_mutation (.ok ⟨[]⟩) 0 0 0 "en" 0 gEmptyCache ⟨[]⟩ rfl
  exact ⟨H.2.1.trans rfl, H.1⟩


end Bixi
